import Mathlib

set_option maxHeartbeats 1000000
set_option autoImplicit false

/-!
Shallow embedding of the whatweb-parser repository (src/parse.py).

Modelling decisions:
* `http_status` values are modelled by their Python `str()` image: every use in
  the source passes them through `str()` or a `%s` format, so an integer status
  and its decimal string are observationally identical.
* The third-party `tldextract` library is modelled as an oracle parameter
  `tldx : String -> TldExtract`; the source only reads `.domain` and `.suffix`
  of the extraction of `chain[0].target`.
* `simplejson.loads` is modelled as an oracle parameter
  `parseLine : String -> Option RequestRecord`; `none` models a parse exception.
  Python 2 `map` is eager, so one failing line aborts the whole `map` call,
  which is `List.mapM` over the `Option` monad.
* File writes are modelled by returning the list of lines appended to the
  output file, in write order.
-/

/-- Result record of tldextract.extract (subdomain, domain, suffix). -/
structure TldExtract where
  subdomain : String
  domain : String
  suffix : String

/-- One entry of the PLUGIN_FIELD_KEYS table of src/parse.py. -/
structure FieldSpec where
  key : String
  output_key : String
  deriving DecidableEq

/-- One parsed JSON record of a WhatWeb log line: fields target, http_status
and plugins (plugin name -> value kind -> list of string values). -/
structure RequestRecord where
  target : String
  http_status : String
  plugins : List (String × List (String × List String))
  deriving DecidableEq

/-- Python dict lookup, on an association list (dict keys are unique). -/
def dget {α : Type} : List (String × α) → String → Option α
  | [], _ => none
  | (k, v) :: rest, f => if f = k then some v else dget rest f

theorem dget_nil {α : Type} (f : String) : dget ([] : List (String × α)) f = none := rfl

theorem dget_cons {α : Type} (k : String) (v : α) (rest : List (String × α)) (f : String) :
    dget ((k, v) :: rest) f = if f = k then some v else dget rest f := rfl

/-- PLUGIN_FIELD_KEYS from src/parse.py, lines 35-64. -/
def PLUGIN_FIELD_KEYS : List (String × FieldSpec) :=
  [("HTTPServer", ⟨"string", "server"⟩),
   ("IP", ⟨"string", "ip_address"⟩),
   ("RedirectLocation", ⟨"string", "redirects_to"⟩),
   ("X-Powered-By", ⟨"string", "powered_by"⟩),
   ("PoweredBy", ⟨"string", "powered_by"⟩),
   ("Parked-Domain", ⟨"string", "is_parked"⟩),
   ("WWW-Authenticate", ⟨"module", "is_auth"⟩)]

/-- Python str.startswith, at the character-list level. -/
def isPrefixCharList : List Char → List Char → Bool
  | [], _ => true
  | _ :: _, [] => false
  | a :: as, b :: bs => a == b && isPrefixCharList as bs

/-- Python s.startswith(pre). -/
def strStartsWith (s pre : String) : Bool := isPrefixCharList pre.data s.data

/-- Python s.endswith(suf); used to model glob matching of a fixed extension. -/
def strEndsWith (s suf : String) : Bool := isPrefixCharList suf.data.reverse s.data.reverse

/-- The character class stripped by Python str.strip()/rstrip() with no argument. -/
def isPyWhitespace (c : Char) : Bool :=
  c == ' ' || c == '\t' || c == '\n' || c == '\r' || c == '\x0b' || c == '\x0c'

/-- Python s.rstrip(). -/
def pyRstrip (s : String) : String :=
  String.mk ((s.data.reverse.dropWhile isPyWhitespace).reverse)

/-- Python s.strip(). -/
def pyStrip (s : String) : String :=
  String.mk (((s.data.dropWhile isPyWhitespace).reverse.dropWhile isPyWhitespace).reverse)

/-- Python s.rstrip('/'): drop every trailing '/' character. -/
def rstripSlash (s : String) : String :=
  String.mk ((s.data.reverse.dropWhile (fun c => c == '/')).reverse)

/-- Python s.split(' ')[0]: the prefix of s up to the first single-space
character (tabs and newlines are not delimiters). -/
def spaceHeadToken (s : String) : String :=
  String.mk (s.data.takeWhile (fun c => c != ' '))

/-- Python s.split(sep) for a nonempty sep, on character lists, with a fuel
argument (any fuel above the list length is enough, so the fuel never runs
out for the fuel passed by pySplit): leftmost non-overlapping occurrences of
sep cut the list, empty pieces kept. -/
def splitFuel : Nat → List Char → List Char → List (List Char)
  | 0, _, l => [l]
  | n + 1, sep, l =>
    match l with
    | [] => [[]]
    | c :: rest =>
      if sep ≠ [] ∧ isPrefixCharList sep (c :: rest) = true then
        [] :: splitFuel n sep (List.drop sep.length (c :: rest))
      else
        match splitFuel n sep rest with
        | [] => [[c]]
        | x :: xs => (c :: x) :: xs

/-- Python s.split(sep) for a nonempty separator. -/
def pySplit (s sep : String) : List String :=
  (splitFuel (s.data.length + 1) sep.data s.data).map String.mk

/-- Python (pat in s) for a nonempty pat: splitting on pat yields at least
two pieces exactly when pat occurs in s. All patterns used are nonempty. -/
def containsStr (s pat : String) : Bool := (pySplit s pat).length ≥ 2

/-- The cleanup map(str.strip, plugin_fields.split(sep)) with a comma separator,
from src/parse.py line 159. -/
def splitFields (s : String) : List String := (pySplit s ",").map pyStrip

/-- The extracted_data Python dict: the only keys ever written are the seven
output columns plus is_parked / is_auth. A field is `none` when the key is
absent from the dict. -/
structure ExtractedData where
  target : Option String := none
  status : Option String := none
  notes : Option String := none
  ip_address : Option String := none
  server : Option String := none
  powered_by : Option String := none
  redirects_to : Option String := none
  is_parked : Option String := none
  is_auth : Option String := none
  deriving DecidableEq

/-- The dict write extracted_data[k] = v, for the keys that can occur. -/
def dictSet (d : ExtractedData) (k v : String) : ExtractedData :=
  if k = "target" then { d with target := some v }
  else if k = "status" then { d with status := some v }
  else if k = "notes" then { d with notes := some v }
  else if k = "ip_address" then { d with ip_address := some v }
  else if k = "server" then { d with server := some v }
  else if k = "powered_by" then { d with powered_by := some v }
  else if k = "redirects_to" then { d with redirects_to := some v }
  else if k = "is_parked" then { d with is_parked := some v }
  else if k = "is_auth" then { d with is_auth := some v }
  else d

/-- The final output record: exactly the seven CSV data columns. -/
structure OutputRecord where
  target : String
  status : String
  ip_address : String
  server : String
  powered_by : String
  redirects_to : String
  notes : String
  deriving DecidableEq

/-- The defaulting loop of parse_and_extract_data (missing expected keys
become the empty string) followed by the %-format read of the seven keys. -/
def finalizeRecord (d : ExtractedData) : OutputRecord :=
  { target := d.target.getD ""
    status := d.status.getD ""
    ip_address := d.ip_address.getD ""
    server := d.server.getD ""
    powered_by := d.powered_by.getD ""
    redirects_to := d.redirects_to.getD ""
    notes := d.notes.getD "" }

/-- The 7-column CSV data row written by parse_and_extract_data, line 246. -/
def row7 (r : OutputRecord) : String :=
  r.target ++ "," ++ r.status ++ "," ++ r.ip_address ++ "," ++ r.server ++ ","
    ++ r.powered_by ++ "," ++ r.redirects_to ++ "," ++ r.notes ++ "\n"

/-- The nested lookup of line 203: json_blobs[0].plugins[field][key][0], where
key comes from the PLUGIN_FIELD_KEYS entry of the field; every failure along
the path is collapsed to `none` (the bare except of lines 215-216). -/
def pluginLookup (b : RequestRecord) (field : String) : Option (FieldSpec × String) := do
  let spec ← dget PLUGIN_FIELD_KEYS field
  let pv ← dget b.plugins field
  let vs ← dget pv spec.key
  let v ← vs.head?
  pure (spec, v)

/-- The running state of the plugin-field loop: the local variables status and
notes plus the extracted_data dict. -/
structure PState where
  status : String
  notes : String
  data : ExtractedData

/-- One iteration of the plugin-field loop, src/parse.py lines 201-216. -/
def pluginStep (b : RequestRecord) (st : PState) (field : String) : PState :=
  match pluginLookup b field with
  | none => st
  | some (spec, v) =>
    if field = "Parked-Domain" ∧ v ≠ "" then
      { st with status := "Parked", notes := v }
    else if field = "WWW-Authenticate" ∧ v ≠ "" then
      { st with status := "Auth Required", notes := v }
    else
      { st with data := dictSet st.data spec.output_key v }

/-- The base status classification from chain[0], src/parse.py lines 170-175. -/
def baseStatus (s : String) : String :=
  if strStartsWith s "20" then "Valid"
  else if strStartsWith s "40" then "Forbidden - " ++ s
  else s

/-- The redirect status classification, src/parse.py lines 180-193. -/
def redirectStatus (b0 lastB : RequestRecord) (target_tld : TldExtract) : String :=
  let redirects_to := rstripSlash lastB.target
  let status := b0.http_status
  let redirect_status := lastB.http_status
  let status :=
    if strStartsWith redirect_status "20" then
      if redirects_to = "https://www." ++ target_tld.domain ++ "." ++ target_tld.suffix ∨
         redirects_to = "https://" ++ target_tld.domain ++ "." ++ target_tld.suffix then
        "Valid"
      else
        "Redirect - " ++ b0.http_status
    else status
  if strStartsWith redirect_status "40" then "Forbidden - " ++ redirect_status else status

/-- Status and initial extracted_data produced by the redirect block
(lines 177-196): with no redirect the base status stands and the dict stays
empty; with a redirect the status is recomputed from scratch and
redirects_to is merged into the dict. -/
def redirectPart (b0 : RequestRecord) (lastQ : Option RequestRecord)
    (target_tld : TldExtract) (base : String) : String × ExtractedData :=
  match lastQ with
  | none => (base, {})
  | some lastB =>
    (redirectStatus b0 lastB target_tld, dictSet {} "redirects_to" (rstripSlash lastB.target))

/-- extract_url_data_from_json on a chain split as head plus tail, after the
plugin_fields string has been split and stripped. -/
def extract_core (blob0 : RequestRecord) (rest : List RequestRecord)
    (fields : List String) (tldx : String → TldExtract) : ExtractedData :=
  let target := blob0.target
  let target_tld := tldx target
  let p := redirectPart blob0 rest.getLast? target_tld (baseStatus blob0.http_status)
  let st := (fields ++ ["Parked-Domain", "WWW-Authenticate"]).foldl (pluginStep blob0) ⟨p.1, "", p.2⟩
  dictSet (dictSet (dictSet st.data "target" target) "status" st.status) "notes" st.notes

/-- extract_url_data_from_json, src/parse.py lines 142-224. The source
indexes json_blobs[0] unguarded; its only caller guarantees a nonempty list,
and the empty case is modelled as `none` (an uncaught IndexError). -/
def extract_url_data_from_json (json_blobs : List RequestRecord)
    (plugin_fields : String) (tldx : String → TldExtract) : Option ExtractedData :=
  match json_blobs with
  | [] => none
  | blob0 :: rest => some (extract_core blob0 rest (splitFields plugin_fields) tldx)

/-- The error classification of the json-parse failure path,
src/parse.py lines 124-133 (first substring match wins). -/
def classifyFailure (file_contents : String) : String :=
  if containsStr file_contents "Connection refused" then "Server Error"
  else if containsStr file_contents "Hostname not known" then "Server Not Found"
  else if containsStr file_contents "ERROR: SSL_connect" then "Server Error - SSL_connect"
  else if containsStr file_contents "Timed out" then "Server Error - Timed Out"
  else "Server Error - Catch All"

/-- parse_json_log_output, src/parse.py lines 102-140: returns the parsed
records together with the lines this function itself appends to the output
file (the 2-column failure line, on the failure path). -/
def parse_json_log_output (parseLine : String → Option RequestRecord)
    (raw : String) : List RequestRecord × List String :=
  match (pySplit (pyRstrip raw) "\n").mapM parseLine with
  | some json_blobs => (json_blobs, [])
  | none =>
    ([], [spaceHeadToken (pyRstrip raw) ++ "," ++ classifyFailure (pyRstrip raw) ++ "\n"])

/-- parse_and_extract_data, src/parse.py lines 226-246: all lines appended to
the output file for one log file, in write order. -/
def parse_and_extract_data (parseLine : String → Option RequestRecord)
    (tldx : String → TldExtract) (raw : String) (plugin_fields : String) : List String :=
  match parse_json_log_output parseLine raw with
  | (json_blobs, errLines) =>
    if json_blobs.length ≠ 0 then
      match extract_url_data_from_json json_blobs plugin_fields tldx with
      | some d => errLines ++ [row7 (finalizeRecord d)]
      | none => errLines
    else errLines

/-- The --log-format argparse choices, src/parse.py line 72. -/
def log_format_choices : List String := ["json", "xml"]

/-- fetch_folder_and_files, src/parse.py lines 79-100. The filesystem is
modelled by whether the input path is a directory and by the list of
(non-hidden) file names it contains; glob of *.format keeps the names ending
in ".format". `Except.error` models print-then-sys.exit. -/
def fetch_folder_and_files (isdir : Bool) (folderFiles : List String)
    (input_folder_path log_format : String) : Except String (List String) :=
  if isdir then
    let log_files := folderFiles.filter (fun f => strEndsWith f ("." ++ log_format))
    if log_files.length = 0 then
      Except.error ("[-] Error: No log files found matching format: " ++ log_format ++ ".")
    else Except.ok log_files
  else
    Except.error ("[-] Error: Path to WhatWeb logs " ++ input_folder_path ++ " does not exist.")

/-- True when the Parked-Domain plugin of a record yields no truthy value
(lookup fails or the value is the empty string). -/
def noParked (b : RequestRecord) : Bool :=
  match pluginLookup b "Parked-Domain" with
  | some (_, v) => v == ""
  | none => true

/-- True when the WWW-Authenticate plugin of a record yields no truthy value. -/
def noAuth (b : RequestRecord) : Bool :=
  match pluginLookup b "WWW-Authenticate" with
  | some (_, v) => v == ""
  | none => true

/-- Number of commas in a string. -/
def ccount (s : String) : Nat := s.data.count ','

/-- A string with no comma in it. -/
def commaFree (s : String) : Prop := ccount s = 0

instance (s : String) : Decidable (commaFree s) := by
  unfold commaFree; infer_instance

/-- Number of comma-separated columns a CSV consumer sees in one line. -/
def numCols (s : String) : Nat := ccount s + 1

/-- A concrete public-suffix oracle used by witnesses. -/
def tldxConst : String → TldExtract := fun _ => ⟨"", "example", "com"⟩

/-! ### Helper lemmas -/

theorem starts20_not40 (s : String) (h : strStartsWith s "20" = true) :
    strStartsWith s "40" = false := by
  unfold strStartsWith at h ⊢
  have h2 : ("20" : String).data = ['2', '0'] := rfl
  have h4 : ("40" : String).data = ['4', '0'] := rfl
  rw [h2] at h
  rw [h4]
  cases hd : s.data with
  | nil => rw [hd] at h; simp [isPrefixCharList] at h
  | cons c t =>
    rw [hd] at h
    simp only [isPrefixCharList, Bool.and_eq_true, beq_iff_eq] at h
    obtain ⟨hc, -⟩ := h
    subst hc
    simp [isPrefixCharList]

theorem dictSet_redirects_of_ne (d : ExtractedData) (k v : String) (hk : k ≠ "redirects_to") :
    (dictSet d k v).redirects_to = d.redirects_to := by
  unfold dictSet
  split_ifs <;> rfl

theorem pluginLookup_spec (b : RequestRecord) (f : String) (spec : FieldSpec) (v : String)
    (h : pluginLookup b f = some (spec, v)) : dget PLUGIN_FIELD_KEYS f = some spec := by
  simp only [pluginLookup, Option.bind_eq_bind, Option.bind_eq_some, Option.pure_def,
    Option.some.injEq, Prod.mk.injEq] at h
  obtain ⟨spec2, hs, pv, hp, vs, hv, v2, hh, hspec, hval⟩ := h
  rw [← hspec]; exact hs

theorem output_key_redirects (f : String) (spec : FieldSpec)
    (h : dget PLUGIN_FIELD_KEYS f = some spec) (hk : spec.output_key = "redirects_to") :
    f = "RedirectLocation" := by
  simp only [PLUGIN_FIELD_KEYS, dget_cons, dget_nil] at h
  split_ifs at h <;>
    first
      | assumption
      | (injection h with h2; subst h2; exact absurd hk (by decide))

theorem pluginStep_status_preserve (b : RequestRecord) (st : PState) (f : String)
    (hp : f = "Parked-Domain" → noParked b = true)
    (ha : f = "WWW-Authenticate" → noAuth b = true) :
    (pluginStep b st f).status = st.status ∧ (pluginStep b st f).notes = st.notes := by
  rcases hl : pluginLookup b f with _ | ⟨spec, v⟩ <;> simp only [pluginStep, hl]
  · exact ⟨by trivial, by trivial⟩
  · split_ifs with h1 h2
    · exfalso
      obtain ⟨hf, hv⟩ := h1
      subst hf
      have hn := hp rfl
      unfold noParked at hn
      rw [hl] at hn
      simp only [beq_iff_eq] at hn
      exact hv hn
    · exfalso
      obtain ⟨hf, hv⟩ := h2
      subst hf
      have hn := ha rfl
      unfold noAuth at hn
      rw [hl] at hn
      simp only [beq_iff_eq] at hn
      exact hv hn
    · exact ⟨rfl, rfl⟩

theorem foldl_status_preserve (b : RequestRecord) (fields : List String)
    (hnp : noParked b = true) (hna : noAuth b = true) :
    ∀ st : PState, (fields.foldl (pluginStep b) st).status = st.status ∧
      (fields.foldl (pluginStep b) st).notes = st.notes := by
  induction fields with
  | nil => intro st; exact ⟨rfl, rfl⟩
  | cons f fs ih =>
    intro st
    have hstep := pluginStep_status_preserve b st f (fun _ => hnp) (fun _ => hna)
    have hrest := ih (pluginStep b st f)
    simp only [List.foldl_cons]
    exact ⟨hrest.1.trans hstep.1, hrest.2.trans hstep.2⟩

theorem pluginStep_redirects_of_ne (b : RequestRecord) (st : PState) (f : String)
    (hf : f ≠ "RedirectLocation") :
    (pluginStep b st f).data.redirects_to = st.data.redirects_to := by
  rcases hl : pluginLookup b f with _ | ⟨spec, v⟩ <;> simp only [pluginStep, hl]
  · split_ifs with h1 h2
    · rfl
    · rfl
    · exact dictSet_redirects_of_ne st.data spec.output_key v
        (fun hk => hf (output_key_redirects f spec (pluginLookup_spec b f spec v hl) hk))

theorem pluginStep_RL_none (b : RequestRecord) (st : PState)
    (hl : pluginLookup b "RedirectLocation" = none) :
    pluginStep b st "RedirectLocation" = st := by
  simp only [pluginStep, hl]

theorem foldl_redirects_preserve (b : RequestRecord) (fields : List String)
    (hl : pluginLookup b "RedirectLocation" = none) :
    ∀ st : PState, (fields.foldl (pluginStep b) st).data.redirects_to = st.data.redirects_to := by
  induction fields with
  | nil => intro st; rfl
  | cons f fs ih =>
    intro st
    simp only [List.foldl_cons]
    refine (ih (pluginStep b st f)).trans ?_
    by_cases hf : f = "RedirectLocation"
    · subst hf; rw [pluginStep_RL_none b st hl]
    · exact pluginStep_redirects_of_ne b st f hf

theorem pluginStep_RL_set (b : RequestRecord) (st : PState) (v : String)
    (hl : pluginLookup b "RedirectLocation" = some (⟨"string", "redirects_to"⟩, v)) :
    (pluginStep b st "RedirectLocation").data.redirects_to = some v := by
  simp only [pluginStep, hl]
  rw [if_neg (by rintro ⟨h, -⟩; exact absurd h (by decide))]
  rw [if_neg (by rintro ⟨h, -⟩; exact absurd h (by decide))]
  rfl

theorem foldl_redirects_keep (b : RequestRecord) (v : String)
    (hl : pluginLookup b "RedirectLocation" = some (⟨"string", "redirects_to"⟩, v))
    (fields : List String) :
    ∀ st : PState, st.data.redirects_to = some v →
      (fields.foldl (pluginStep b) st).data.redirects_to = some v := by
  induction fields with
  | nil => intro st h; exact h
  | cons f fs ih =>
    intro st h
    simp only [List.foldl_cons]
    apply ih
    by_cases hf : f = "RedirectLocation"
    · subst hf; exact pluginStep_RL_set b st v hl
    · rw [pluginStep_redirects_of_ne b st f hf]; exact h

theorem foldl_redirects_set (b : RequestRecord) (v : String)
    (hl : pluginLookup b "RedirectLocation" = some (⟨"string", "redirects_to"⟩, v))
    (fields : List String) :
    ∀ st : PState, "RedirectLocation" ∈ fields →
      (fields.foldl (pluginStep b) st).data.redirects_to = some v := by
  induction fields with
  | nil => intro st h; cases h
  | cons f fs ih =>
    intro st h
    simp only [List.foldl_cons]
    by_cases hf : f = "RedirectLocation"
    · subst hf
      exact foldl_redirects_keep b v hl fs (pluginStep b st "RedirectLocation")
        (pluginStep_RL_set b st v hl)
    · rcases List.mem_cons.mp h with h1 | h2
      · exact absurd h1.symm hf
      · exact ih (pluginStep b st f) h2

theorem pluginStep_parked (b : RequestRecord) (st : PState) (v : String) (hv : v ≠ "")
    (hl : pluginLookup b "Parked-Domain" = some (⟨"string", "is_parked"⟩, v)) :
    pluginStep b st "Parked-Domain" = { st with status := "Parked", notes := v } := by
  simp only [pluginStep, hl]
  rw [if_pos ⟨by trivial, hv⟩]

theorem pluginStep_auth (b : RequestRecord) (st : PState) (v : String) (hv : v ≠ "")
    (hl : pluginLookup b "WWW-Authenticate" = some (⟨"module", "is_auth"⟩, v)) :
    pluginStep b st "WWW-Authenticate" = { st with status := "Auth Required", notes := v } := by
  simp only [pluginStep, hl]
  rw [if_neg (by rintro ⟨h, -⟩; exact absurd h (by decide))]
  rw [if_pos ⟨by trivial, hv⟩]

theorem final_merge_fields (d : ExtractedData) (t s n : String) :
    (dictSet (dictSet (dictSet d "target" t) "status" s) "notes" n).target = some t ∧
    (dictSet (dictSet (dictSet d "target" t) "status" s) "notes" n).status = some s ∧
    (dictSet (dictSet (dictSet d "target" t) "status" s) "notes" n).notes = some n ∧
    (dictSet (dictSet (dictSet d "target" t) "status" s) "notes" n).ip_address = d.ip_address ∧
    (dictSet (dictSet (dictSet d "target" t) "status" s) "notes" n).server = d.server ∧
    (dictSet (dictSet (dictSet d "target" t) "status" s) "notes" n).powered_by = d.powered_by ∧
    (dictSet (dictSet (dictSet d "target" t) "status" s) "notes" n).redirects_to = d.redirects_to ∧
    (dictSet (dictSet (dictSet d "target" t) "status" s) "notes" n).is_parked = d.is_parked ∧
    (dictSet (dictSet (dictSet d "target" t) "status" s) "notes" n).is_auth = d.is_auth :=
  ⟨rfl, rfl, rfl, rfl, rfl, rfl, rfl, rfl, rfl⟩

/-! ### Phase view of extract_core -/

/-- The plugin loop of lines 200-216: the user fields with the two special
fields appended, folded over the loop body. -/
def pluginPhase (b0 : RequestRecord) (fields : List String) (init : PState) : PState :=
  (fields ++ ["Parked-Domain", "WWW-Authenticate"]).foldl (pluginStep b0) init

/-- The loop state right before the plugin loop: status and empty notes from
the base and redirect blocks, extracted_data holding at most redirects_to. -/
def initState (b0 : RequestRecord) (rest : List RequestRecord)
    (tldx : String → TldExtract) : PState :=
  ⟨(redirectPart b0 rest.getLast? (tldx b0.target) (baseStatus b0.http_status)).1, "",
   (redirectPart b0 rest.getLast? (tldx b0.target) (baseStatus b0.http_status)).2⟩

theorem extract_core_as_phases (b0 : RequestRecord) (rest : List RequestRecord)
    (fields : List String) (tldx : String → TldExtract) :
    extract_core b0 rest fields tldx =
      dictSet (dictSet (dictSet (pluginPhase b0 fields (initState b0 rest tldx)).data
        "target" b0.target) "status" (pluginPhase b0 fields (initState b0 rest tldx)).status)
        "notes" (pluginPhase b0 fields (initState b0 rest tldx)).notes := rfl

theorem pluginPhase_status (b0 : RequestRecord) (fields : List String) (init : PState)
    (hnp : noParked b0 = true) (hna : noAuth b0 = true) :
    (pluginPhase b0 fields init).status = init.status ∧
      (pluginPhase b0 fields init).notes = init.notes :=
  foldl_status_preserve b0 (fields ++ ["Parked-Domain", "WWW-Authenticate"]) hnp hna init

theorem extract_status (b0 : RequestRecord) (rest : List RequestRecord)
    (fields : List String) (tldx : String → TldExtract)
    (hnp : noParked b0 = true) (hna : noAuth b0 = true) :
    (extract_core b0 rest fields tldx).status = some (initState b0 rest tldx).status := by
  rw [extract_core_as_phases]
  have h := final_merge_fields (pluginPhase b0 fields (initState b0 rest tldx)).data b0.target
    (pluginPhase b0 fields (initState b0 rest tldx)).status
    (pluginPhase b0 fields (initState b0 rest tldx)).notes
  exact h.2.1.trans (congrArg some (pluginPhase_status b0 fields (initState b0 rest tldx) hnp hna).1)

theorem extract_redirects (b0 : RequestRecord) (rest : List RequestRecord)
    (fields : List String) (tldx : String → TldExtract) :
    (extract_core b0 rest fields tldx).redirects_to =
      (pluginPhase b0 fields (initState b0 rest tldx)).data.redirects_to := by
  rw [extract_core_as_phases]
  exact (final_merge_fields (pluginPhase b0 fields (initState b0 rest tldx)).data b0.target
    (pluginPhase b0 fields (initState b0 rest tldx)).status
    (pluginPhase b0 fields (initState b0 rest tldx)).notes).2.2.2.2.2.2.1

/-! ### Claim theorems: C1, C2, C3, C6, C10 -/

/-- C1: for every well-formed single-record chain (with no Parked-Domain or
WWW-Authenticate status override, which claims C4/C5 cover), the output
status is Valid when the stringified http_status of chain[0] starts with 20,
Forbidden - status when it starts with 40, and otherwise the raw status
value (stringified) left unchanged. -/
theorem c1_single_record_status (b : RequestRecord) (pf : String)
    (tldx : String → TldExtract) (out : ExtractedData)
    (hnp : noParked b = true) (hna : noAuth b = true)
    (hout : extract_url_data_from_json [b] pf tldx = some out) :
    (strStartsWith b.http_status "20" = true → (finalizeRecord out).status = "Valid") ∧
    (strStartsWith b.http_status "20" = false → strStartsWith b.http_status "40" = true →
      (finalizeRecord out).status = "Forbidden - " ++ b.http_status) ∧
    (strStartsWith b.http_status "20" = false → strStartsWith b.http_status "40" = false →
      (finalizeRecord out).status = b.http_status) := by
  simp only [extract_url_data_from_json, Option.some.injEq] at hout
  subst hout
  have hst := extract_status b [] (splitFields pf) tldx hnp hna
  have hbase : (initState b [] tldx).status = baseStatus b.http_status := rfl
  rw [hbase] at hst
  have hfs : (finalizeRecord (extract_core b [] (splitFields pf) tldx)).status
      = baseStatus b.http_status := by
    simp [finalizeRecord, hst]
  refine ⟨?_, ?_, ?_⟩
  · intro h1
    rw [hfs]
    simp [baseStatus, h1]
  · intro h1 h2
    rw [hfs]
    simp [baseStatus, h1, h2]
  · intro h1 h2
    rw [hfs]
    simp [baseStatus, h1, h2]

/-- C2: for every chain of length greater than 1 (with no Parked-Domain or
WWW-Authenticate status override) whose last record has a stringified
http_status starting with 40, the output status is Forbidden - that status,
regardless of the first record status; the 40x check is evaluated after the
20x branch and has the last word in the redirect block. -/
theorem c2_redirect_forbidden (b0 lastB : RequestRecord) (rest : List RequestRecord)
    (pf : String) (tldx : String → TldExtract) (out : ExtractedData)
    (hnp : noParked b0 = true) (hna : noAuth b0 = true)
    (hlast : rest.getLast? = some lastB)
    (h40 : strStartsWith lastB.http_status "40" = true)
    (hout : extract_url_data_from_json (b0 :: rest) pf tldx = some out) :
    (finalizeRecord out).status = "Forbidden - " ++ lastB.http_status := by
  simp only [extract_url_data_from_json, Option.some.injEq] at hout
  subst hout
  have hst := extract_status b0 rest (splitFields pf) tldx hnp hna
  have hinit : (initState b0 rest tldx).status = redirectStatus b0 lastB (tldx b0.target) := by
    simp [initState, redirectPart, hlast]
  have hrs : redirectStatus b0 lastB (tldx b0.target) = "Forbidden - " ++ lastB.http_status := by
    simp [redirectStatus, h40]
  rw [hinit, hrs] at hst
  simp [finalizeRecord, hst]

/-- C3: for a 2-record chain (with no status override and no RedirectLocation
plugin value on chain[0]) whose last record has a 20x status, the output is
Valid with redirects_to the stripped last target when that target is the bare
HTTPS upgrade of chain[0], and Redirect - chain[0].http_status otherwise. -/
theorem c3_https_upgrade (b0 b1 : RequestRecord) (pf : String)
    (tldx : String → TldExtract) (out : ExtractedData)
    (hnp : noParked b0 = true) (hna : noAuth b0 = true)
    (hRL : pluginLookup b0 "RedirectLocation" = none)
    (h20 : strStartsWith b1.http_status "20" = true)
    (hout : extract_url_data_from_json [b0, b1] pf tldx = some out) :
    ((rstripSlash b1.target =
        "https://www." ++ (tldx b0.target).domain ++ "." ++ (tldx b0.target).suffix ∨
      rstripSlash b1.target =
        "https://" ++ (tldx b0.target).domain ++ "." ++ (tldx b0.target).suffix) →
      (finalizeRecord out).status = "Valid" ∧
      (finalizeRecord out).redirects_to = rstripSlash b1.target) ∧
    (¬(rstripSlash b1.target =
        "https://www." ++ (tldx b0.target).domain ++ "." ++ (tldx b0.target).suffix ∨
       rstripSlash b1.target =
        "https://" ++ (tldx b0.target).domain ++ "." ++ (tldx b0.target).suffix) →
      (finalizeRecord out).status = "Redirect - " ++ b0.http_status) := by
  simp only [extract_url_data_from_json, Option.some.injEq] at hout
  subst hout
  have h40 : strStartsWith b1.http_status "40" = false := starts20_not40 b1.http_status h20
  have hst := extract_status b0 [b1] (splitFields pf) tldx hnp hna
  have hinit : (initState b0 [b1] tldx).status = redirectStatus b0 b1 (tldx b0.target) := rfl
  rw [hinit] at hst
  have hrd : (extract_core b0 [b1] (splitFields pf) tldx).redirects_to
      = some (rstripSlash b1.target) := by
    rw [extract_redirects]
    unfold pluginPhase
    rw [foldl_redirects_preserve b0 _ hRL]
    rfl
  constructor
  · intro hup
    constructor
    · have hrs : redirectStatus b0 b1 (tldx b0.target) = "Valid" := by
        simp only [redirectStatus, h20, h40, if_true, if_false, Bool.false_eq_true]
        rw [if_pos hup]
      rw [hrs] at hst
      simp [finalizeRecord, hst]
    · simp [finalizeRecord, hrd]
  · intro hup
    have hrs : redirectStatus b0 b1 (tldx b0.target) = "Redirect - " ++ b0.http_status := by
      simp only [redirectStatus, h20, h40, if_true, if_false, Bool.false_eq_true]
      rw [if_neg hup]
    rw [hrs] at hst
    simp [finalizeRecord, hst]

/-- C6: for every chain of length greater than 1 whose last record status
starts with neither 20 nor 40, and with no Parked-Domain or WWW-Authenticate
override, the output status is the stringified http_status of chain[0]
verbatim: the base classification is overwritten and discarded. -/
theorem c6_passthrough_status (b0 lastB : RequestRecord) (rest : List RequestRecord)
    (pf : String) (tldx : String → TldExtract) (out : ExtractedData)
    (hnp : noParked b0 = true) (hna : noAuth b0 = true)
    (hlast : rest.getLast? = some lastB)
    (h20 : strStartsWith lastB.http_status "20" = false)
    (h40 : strStartsWith lastB.http_status "40" = false)
    (hout : extract_url_data_from_json (b0 :: rest) pf tldx = some out) :
    (finalizeRecord out).status = b0.http_status := by
  simp only [extract_url_data_from_json, Option.some.injEq] at hout
  subst hout
  have hst := extract_status b0 rest (splitFields pf) tldx hnp hna
  have hinit : (initState b0 rest tldx).status = redirectStatus b0 lastB (tldx b0.target) := by
    simp [initState, redirectPart, hlast]
  have hrs : redirectStatus b0 lastB (tldx b0.target) = b0.http_status := by
    simp [redirectStatus, h20, h40]
  rw [hinit, hrs] at hst
  simp [finalizeRecord, hst]

/-- C10: when RedirectLocation is among the user-requested fields and
chain[0] has a RedirectLocation string value, the output redirects_to equals
that plugin value: the plugin loop runs after the redirect merge, so it
overwrites the redirect-derived value on longer chains and fills the
otherwise-empty column on single-record chains. -/
theorem c10_redirect_location_plugin (b0 : RequestRecord) (rest : List RequestRecord)
    (pf : String) (tldx : String → TldExtract) (out : ExtractedData) (v : String)
    (hmem : "RedirectLocation" ∈ splitFields pf)
    (hrl : pluginLookup b0 "RedirectLocation" = some (⟨"string", "redirects_to"⟩, v))
    (hout : extract_url_data_from_json (b0 :: rest) pf tldx = some out) :
    (finalizeRecord out).redirects_to = v := by
  simp only [extract_url_data_from_json, Option.some.injEq] at hout
  subst hout
  have hrd : (extract_core b0 rest (splitFields pf) tldx).redirects_to = some v := by
    rw [extract_redirects]
    unfold pluginPhase
    rw [List.foldl_append]
    have h1 : ((splitFields pf).foldl (pluginStep b0)
        (initState b0 rest tldx)).data.redirects_to = some v :=
      foldl_redirects_set b0 v hrl (splitFields pf) (initState b0 rest tldx) hmem
    simp only [List.foldl_cons, List.foldl_nil]
    rw [pluginStep_redirects_of_ne b0 _ "WWW-Authenticate" (by decide)]
    rw [pluginStep_redirects_of_ne b0 _ "Parked-Domain" (by decide)]
    exact h1
  simp [finalizeRecord, hrd]

theorem c1_witness :
    (finalizeRecord (extract_core ⟨"http://example.com", "200", []⟩ []
        (splitFields "IP") tldxConst)).status = "Valid" :=
  (c1_single_record_status ⟨"http://example.com", "200", []⟩ "IP" tldxConst
    (extract_core ⟨"http://example.com", "200", []⟩ [] (splitFields "IP") tldxConst)
    (by decide) (by decide) rfl).1 (by decide)

theorem c2_witness :
    (finalizeRecord (extract_core ⟨"http://example.com", "301", []⟩
        [⟨"http://x.com/a", "404", []⟩] (splitFields "IP") tldxConst)).status
      = "Forbidden - 404" :=
  c2_redirect_forbidden ⟨"http://example.com", "301", []⟩ ⟨"http://x.com/a", "404", []⟩
    [⟨"http://x.com/a", "404", []⟩] "IP" tldxConst
    (extract_core ⟨"http://example.com", "301", []⟩ [⟨"http://x.com/a", "404", []⟩]
      (splitFields "IP") tldxConst)
    (by decide) (by decide) (by decide) (by decide) rfl

theorem c3_witness :
    (finalizeRecord (extract_core ⟨"http://example.com", "301", []⟩
        [⟨"https://example.com/", "200", []⟩] (splitFields "IP") tldxConst)).status = "Valid" ∧
    (finalizeRecord (extract_core ⟨"http://example.com", "301", []⟩
        [⟨"https://example.com/", "200", []⟩] (splitFields "IP") tldxConst)).redirects_to
      = "https://example.com" :=
  (c3_https_upgrade ⟨"http://example.com", "301", []⟩ ⟨"https://example.com/", "200", []⟩
    "IP" tldxConst
    (extract_core ⟨"http://example.com", "301", []⟩ [⟨"https://example.com/", "200", []⟩]
      (splitFields "IP") tldxConst)
    (by decide) (by decide) (by decide) (by decide) rfl).1 (by decide)

theorem c6_witness :
    (finalizeRecord (extract_core ⟨"http://example.com", "200", []⟩
        [⟨"http://x.com", "301", []⟩] (splitFields "IP") tldxConst)).status = "200" :=
  c6_passthrough_status ⟨"http://example.com", "200", []⟩ ⟨"http://x.com", "301", []⟩
    [⟨"http://x.com", "301", []⟩] "IP" tldxConst
    (extract_core ⟨"http://example.com", "200", []⟩ [⟨"http://x.com", "301", []⟩]
      (splitFields "IP") tldxConst)
    (by decide) (by decide) (by decide) (by decide) (by decide) rfl

theorem c10_witness :
    (finalizeRecord (extract_core
        ⟨"http://example.com", "301", [("RedirectLocation", [("string", ["http://plugin.example.com"])])]⟩
        [] (splitFields "RedirectLocation") tldxConst)).redirects_to
      = "http://plugin.example.com" :=
  c10_redirect_location_plugin
    ⟨"http://example.com", "301", [("RedirectLocation", [("string", ["http://plugin.example.com"])])]⟩
    [] "RedirectLocation" tldxConst
    (extract_core
      ⟨"http://example.com", "301", [("RedirectLocation", [("string", ["http://plugin.example.com"])])]⟩
      [] (splitFields "RedirectLocation") tldxConst)
    "http://plugin.example.com" (by decide) (by decide) rfl

/-! ### Claims C4 and C5: the special-field overrides -/

theorem extract_status_notes (b0 : RequestRecord) (rest : List RequestRecord)
    (fields : List String) (tldx : String → TldExtract) :
    (extract_core b0 rest fields tldx).status
        = some (pluginPhase b0 fields (initState b0 rest tldx)).status ∧
    (extract_core b0 rest fields tldx).notes
        = some (pluginPhase b0 fields (initState b0 rest tldx)).notes := by
  rw [extract_core_as_phases]
  have h := final_merge_fields (pluginPhase b0 fields (initState b0 rest tldx)).data b0.target
    (pluginPhase b0 fields (initState b0 rest tldx)).status
    (pluginPhase b0 fields (initState b0 rest tldx)).notes
  exact ⟨h.2.1, h.2.2.1⟩

theorem pluginPhase_split (b0 : RequestRecord) (fields : List String) (init : PState) :
    pluginPhase b0 fields init =
      pluginStep b0 (pluginStep b0 (fields.foldl (pluginStep b0) init) "Parked-Domain")
        "WWW-Authenticate" := by
  unfold pluginPhase
  rw [List.foldl_append]
  rfl

/-- C4 counterexample: on a single-record chain whose first record carries
both a truthy Parked-Domain string value and a truthy WWW-Authenticate
module value, the Parked-Domain lookup succeeds and is truthy, yet the final
output status is Auth Required, not Parked. -/
theorem c4_counterexample :
    pluginLookup ⟨"t4", "200", [("Parked-Domain", [("string", ["true"])]),
        ("WWW-Authenticate", [("module", ["Basic realm"])])]⟩ "Parked-Domain"
      = some (⟨"string", "is_parked"⟩, "true") ∧
    (extract_url_data_from_json [⟨"t4", "200", [("Parked-Domain", [("string", ["true"])]),
        ("WWW-Authenticate", [("module", ["Basic realm"])])]⟩] "" tldxConst).map
      (fun d => (finalizeRecord d).status) = some "Auth Required" ∧
    ("Auth Required" : String) ≠ "Parked" := by
  refine ⟨rfl, rfl, by decide⟩

/-- C4 (amended): Parked-Domain and WWW-Authenticate are always consulted
regardless of the user-requested field set, and whenever
chain[0].plugins at Parked-Domain, kind string, index 0 exists and is truthy
and the WWW-Authenticate lookup yields no truthy value, the final output has
status Parked and notes equal to the Parked-Domain value, overriding any
redirect-derived status. (A truthy WWW-Authenticate value is evaluated after
Parked-Domain and would override to Auth Required.) -/
theorem c4_parked_override (b0 : RequestRecord) (rest : List RequestRecord)
    (pf : String) (tldx : String → TldExtract) (out : ExtractedData) (v : String)
    (hv : v ≠ "")
    (hp : pluginLookup b0 "Parked-Domain" = some (⟨"string", "is_parked"⟩, v))
    (hna : noAuth b0 = true)
    (hout : extract_url_data_from_json (b0 :: rest) pf tldx = some out) :
    (finalizeRecord out).status = "Parked" ∧ (finalizeRecord out).notes = v := by
  simp only [extract_url_data_from_json, Option.some.injEq] at hout
  subst hout
  have he := extract_status_notes b0 rest (splitFields pf) tldx
  have hsplit := pluginPhase_split b0 (splitFields pf) (initState b0 rest tldx)
  have hmid := pluginStep_parked b0
    ((splitFields pf).foldl (pluginStep b0) (initState b0 rest tldx)) v hv hp
  have hlast := pluginStep_status_preserve b0
    (pluginStep b0 ((splitFields pf).foldl (pluginStep b0) (initState b0 rest tldx))
      "Parked-Domain") "WWW-Authenticate"
    (fun h => absurd h (by decide)) (fun _ => hna)
  rw [hsplit, hmid] at he
  rw [hmid] at hlast
  constructor
  · have h1 := he.1.trans (congrArg some hlast.1)
    simp [finalizeRecord, h1]
  · have h2 := he.2.trans (congrArg some hlast.2)
    simp [finalizeRecord, h2]

theorem c4_witness :
    (finalizeRecord (extract_core
        ⟨"t4w", "500", [("Parked-Domain", [("string", ["parkedvalue"])])]⟩ []
        (splitFields "IP") tldxConst)).status = "Parked" ∧
    (finalizeRecord (extract_core
        ⟨"t4w", "500", [("Parked-Domain", [("string", ["parkedvalue"])])]⟩ []
        (splitFields "IP") tldxConst)).notes = "parkedvalue" :=
  c4_parked_override ⟨"t4w", "500", [("Parked-Domain", [("string", ["parkedvalue"])])]⟩
    [] "IP" tldxConst
    (extract_core ⟨"t4w", "500", [("Parked-Domain", [("string", ["parkedvalue"])])]⟩ []
      (splitFields "IP") tldxConst)
    "parkedvalue" (by decide) (by decide) (by decide) rfl

/-- C5 counterexample: a first record with Parked-Domain string value "yes"
and WWW-Authenticate module value "NTLM", both truthy: the final status is
Auth Required, not Parked, so parked does not take precedence over auth. -/
theorem c5_counterexample :
    pluginLookup ⟨"t5", "301", [("Parked-Domain", [("string", ["yes"])]),
        ("WWW-Authenticate", [("module", ["NTLM"])])]⟩ "Parked-Domain"
      = some (⟨"string", "is_parked"⟩, "yes") ∧
    pluginLookup ⟨"t5", "301", [("Parked-Domain", [("string", ["yes"])]),
        ("WWW-Authenticate", [("module", ["NTLM"])])]⟩ "WWW-Authenticate"
      = some (⟨"module", "is_auth"⟩, "NTLM") ∧
    (extract_url_data_from_json [⟨"t5", "301", [("Parked-Domain", [("string", ["yes"])]),
        ("WWW-Authenticate", [("module", ["NTLM"])])]⟩] "HTTPServer" tldxConst).map
      (fun d => (finalizeRecord d).status) = some "Auth Required" ∧
    some ("Auth Required" : String) ≠ some "Parked" := by
  refine ⟨rfl, rfl, rfl, by decide⟩

/-- C5 (amended): when chain[0].plugins carries both a truthy Parked-Domain
value (kind string) and a truthy WWW-Authenticate value (kind module), the
classification precedence is auth-required over parked: WWW-Authenticate is
appended last and evaluated last, so the final output status is Auth
Required with notes the WWW-Authenticate value; Parked results only when the
WWW-Authenticate lookup yields no truthy value. -/
theorem c5_auth_precedence (b0 : RequestRecord) (rest : List RequestRecord)
    (pf : String) (tldx : String → TldExtract) (out : ExtractedData) (vp va : String)
    (_hvp : vp ≠ "") (hva : va ≠ "")
    (_hp : pluginLookup b0 "Parked-Domain" = some (⟨"string", "is_parked"⟩, vp))
    (ha : pluginLookup b0 "WWW-Authenticate" = some (⟨"module", "is_auth"⟩, va))
    (hout : extract_url_data_from_json (b0 :: rest) pf tldx = some out) :
    (finalizeRecord out).status = "Auth Required" ∧ (finalizeRecord out).notes = va := by
  simp only [extract_url_data_from_json, Option.some.injEq] at hout
  subst hout
  have he := extract_status_notes b0 rest (splitFields pf) tldx
  have hsplit := pluginPhase_split b0 (splitFields pf) (initState b0 rest tldx)
  have hlast := pluginStep_auth b0
    (pluginStep b0 ((splitFields pf).foldl (pluginStep b0) (initState b0 rest tldx))
      "Parked-Domain") va hva ha
  rw [hsplit, hlast] at he
  constructor
  · simp [finalizeRecord, he.1]
  · simp [finalizeRecord, he.2]

theorem c5_witness :
    (finalizeRecord (extract_core ⟨"t5w", "200", [("Parked-Domain", [("string", ["p"])]),
        ("WWW-Authenticate", [("module", ["Digest"])])]⟩ []
        (splitFields "IP") tldxConst)).status = "Auth Required" ∧
    (finalizeRecord (extract_core ⟨"t5w", "200", [("Parked-Domain", [("string", ["p"])]),
        ("WWW-Authenticate", [("module", ["Digest"])])]⟩ []
        (splitFields "IP") tldxConst)).notes = "Digest" :=
  c5_auth_precedence ⟨"t5w", "200", [("Parked-Domain", [("string", ["p"])]),
      ("WWW-Authenticate", [("module", ["Digest"])])]⟩ [] "IP" tldxConst
    (extract_core ⟨"t5w", "200", [("Parked-Domain", [("string", ["p"])]),
      ("WWW-Authenticate", [("module", ["Digest"])])]⟩ [] (splitFields "IP") tldxConst)
    "p" "Digest" (by decide) (by decide) (by decide) (by decide) rfl

/-! ### Claim C7: the json-parse failure path -/

/-- C7 counterexample: a non-JSON log whose text is "a TAB b SPACE Connection
refused": the emitted 2-column line takes everything up to the first single
space as the target, so the target is "a TAB b" and not the first
whitespace-delimited token "a". -/
theorem c7_counterexample :
    parse_and_extract_data (fun _ => none) tldxConst "a\tb Connection refused" "IP"
      = ["a\tb,Server Error\n"] ∧
    ("a\tb,Server Error\n" : String) ≠ "a,Server Error\n" := by
  refine ⟨rfl, by decide⟩

/-- C7 (amended): if any line of a log file fails to parse as JSON, the whole
file is a tool-level failure: the target is the first space-delimited token
of the raw text (Python split on single spaces: tabs and newlines do not
delimit), the status is chosen by substring match in precedence order
(Connection refused, then Hostname not known, then ERROR: SSL_connect, then
Timed out, then the catch-all), the parser appends exactly one 2-column
target,status line to the output file, and field extraction is skipped. -/
theorem c7_parse_failure (parseLine : String → Option RequestRecord)
    (tldx : String → TldExtract) (raw pf : String)
    (hfail : ((pySplit (pyRstrip raw) "\n").mapM parseLine) = none) :
    parse_and_extract_data parseLine tldx raw pf =
      [spaceHeadToken (pyRstrip raw) ++ "," ++ classifyFailure (pyRstrip raw) ++ "\n"] := by
  unfold parse_and_extract_data parse_json_log_output
  rw [hfail]
  simp

theorem c7_witness :
    parse_and_extract_data (fun _ => none) tldxConst "whatweb: Connection refused" "IP"
      = ["whatweb:,Server Error\n"] :=
  (c7_parse_failure (fun _ => none) tldxConst "whatweb: Connection refused" "IP" rfl).trans rfl

/-! ### Claim C9: the xml log format -/

/-- C9: the value xml is an accepted --log-format choice, and
fetch_folder_and_files does not reject it: on a folder holding a.xml and
b.json it proceeds with the matching file a.xml (which the batch driver
would then try to parse as JSON), and on a folder with no .xml files it
exits with the No-log-files message, which does not contain the words "not
supported". -/
theorem c9_xml_not_rejected :
    ("xml" ∈ log_format_choices) ∧
    fetch_folder_and_files true ["a.xml", "b.json"] "logs" "xml" = Except.ok ["a.xml"] ∧
    fetch_folder_and_files true ["b.json"] "logs" "xml"
      = Except.error "[-] Error: No log files found matching format: xml." ∧
    containsStr "[-] Error: No log files found matching format: xml." "not supported" = false := by
  refine ⟨by decide, rfl, rfl, by decide⟩

/-! ### Claim C8: column counts of emitted rows -/

theorem ccount_append (a b : String) : ccount (a ++ b) = ccount a + ccount b := by
  unfold ccount
  rw [String.data_append, List.count_append]

theorem commaFree_append (a b : String) (ha : commaFree a) (hb : commaFree b) :
    commaFree (a ++ b) := by
  unfold commaFree at *
  rw [ccount_append]
  omega

/-- Every value reachable in the dict is comma-free. -/
def commaFreeO (x : Option String) : Prop := ∀ v, x = some v → commaFree v

theorem commaFreeO_some (v : String) (h : commaFree v) : commaFreeO (some v) := by
  intro w hw
  cases hw
  exact h

theorem commaFreeO_none : commaFreeO none := by
  intro w hw
  cases hw

theorem commaFreeO_getD (x : Option String) (h : commaFreeO x) : commaFree (x.getD "") := by
  cases x with
  | none => decide
  | some v => exact h v rfl

def commaFreeData (d : ExtractedData) : Prop :=
  commaFreeO d.target ∧ commaFreeO d.status ∧ commaFreeO d.notes ∧ commaFreeO d.ip_address ∧
  commaFreeO d.server ∧ commaFreeO d.powered_by ∧ commaFreeO d.redirects_to ∧
  commaFreeO d.is_parked ∧ commaFreeO d.is_auth

theorem commaFreeData_empty : commaFreeData {} :=
  ⟨commaFreeO_none, commaFreeO_none, commaFreeO_none, commaFreeO_none, commaFreeO_none,
   commaFreeO_none, commaFreeO_none, commaFreeO_none, commaFreeO_none⟩

theorem dictSet_commaFree (d : ExtractedData) (k v : String) (hv : commaFree v)
    (hd : commaFreeData d) : commaFreeData (dictSet d k v) := by
  obtain ⟨h1, h2, h3, h4, h5, h6, h7, h8, h9⟩ := hd
  unfold dictSet
  split_ifs <;>
    first
      | exact ⟨commaFreeO_some v hv, h2, h3, h4, h5, h6, h7, h8, h9⟩
      | exact ⟨h1, commaFreeO_some v hv, h3, h4, h5, h6, h7, h8, h9⟩
      | exact ⟨h1, h2, commaFreeO_some v hv, h4, h5, h6, h7, h8, h9⟩
      | exact ⟨h1, h2, h3, commaFreeO_some v hv, h5, h6, h7, h8, h9⟩
      | exact ⟨h1, h2, h3, h4, commaFreeO_some v hv, h6, h7, h8, h9⟩
      | exact ⟨h1, h2, h3, h4, h5, commaFreeO_some v hv, h7, h8, h9⟩
      | exact ⟨h1, h2, h3, h4, h5, h6, commaFreeO_some v hv, h8, h9⟩
      | exact ⟨h1, h2, h3, h4, h5, h6, h7, commaFreeO_some v hv, h9⟩
      | exact ⟨h1, h2, h3, h4, h5, h6, h7, h8, commaFreeO_some v hv⟩
      | exact ⟨h1, h2, h3, h4, h5, h6, h7, h8, h9⟩

theorem commaFree_sublistChars (l1 l2 : List Char) (hs : l1.Sublist l2)
    (h : l2.count ',' = 0) : l1.count ',' = 0 := by
  have := hs.count_le ','
  omega

theorem commaFree_rstripSlash (s : String) (h : commaFree s) : commaFree (rstripSlash s) := by
  unfold commaFree ccount rstripSlash at *
  rw [List.count_reverse]
  refine commaFree_sublistChars _ _ (List.dropWhile_sublist _) ?_
  rw [List.count_reverse]
  exact h

theorem commaFree_spaceHeadToken (s : String) (h : commaFree s) :
    commaFree (spaceHeadToken s) := by
  unfold commaFree ccount spaceHeadToken at *
  exact commaFree_sublistChars _ _ (List.takeWhile_sublist _) h

theorem commaFree_classifyFailure (s : String) : commaFree (classifyFailure s) := by
  unfold classifyFailure
  split_ifs <;> decide

theorem commaFree_baseStatus (s : String) (h : commaFree s) : commaFree (baseStatus s) := by
  unfold baseStatus
  split_ifs
  · decide
  · exact commaFree_append _ _ (by decide) h
  · exact h

theorem commaFree_redirectStatus (b0 lastB : RequestRecord) (tld : TldExtract)
    (h0 : commaFree b0.http_status) (hl : commaFree lastB.http_status) :
    commaFree (redirectStatus b0 lastB tld) := by
  simp only [redirectStatus]
  split_ifs
  · exact commaFree_append "Forbidden - " lastB.http_status (by decide) hl
  · exact (show commaFree "Valid" by decide)
  · exact commaFree_append "Redirect - " b0.http_status (by decide) h0
  · exact h0

/-- Every plugin value of a record is comma-free. -/
def commaFreePlugins (b : RequestRecord) : Prop :=
  ∀ p ∈ b.plugins, ∀ kv ∈ p.2, ∀ v ∈ kv.2, commaFree v

/-- All the strings of a record that can reach the output are comma-free. -/
def commaFreeBlob (b : RequestRecord) : Prop :=
  commaFree b.target ∧ commaFree b.http_status ∧ commaFreePlugins b

theorem dget_mem {α : Type} (l : List (String × α)) (k : String) (v : α)
    (h : dget l k = some v) : (k, v) ∈ l := by
  induction l with
  | nil => cases h
  | cons p rest ih =>
    obtain ⟨k2, v2⟩ := p
    rw [dget_cons] at h
    split_ifs at h with hk
    · cases h
      subst hk
      exact List.mem_cons_self _ _
    · exact List.mem_cons_of_mem _ (ih h)

theorem pluginLookup_commaFree (b : RequestRecord) (field : String) (spec : FieldSpec)
    (v : String) (hp : commaFreePlugins b) (h : pluginLookup b field = some (spec, v)) :
    commaFree v := by
  simp only [pluginLookup, Option.bind_eq_bind, Option.bind_eq_some, Option.pure_def,
    Option.some.injEq, Prod.mk.injEq] at h
  obtain ⟨spec2, hs, pv, hpv, vs, hvs, v2, hh, hspec, hval⟩ := h
  subst hval
  have h1 : (field, pv) ∈ b.plugins := dget_mem _ _ _ hpv
  have h2 : (spec2.key, vs) ∈ pv := dget_mem _ _ _ hvs
  have h3 : v2 ∈ vs := by
    cases vs with
    | nil => cases hh
    | cons a t =>
      cases hh
      exact List.mem_cons_self _ _
  exact hp (field, pv) h1 (spec2.key, vs) h2 v2 h3

/-- The loop state only ever holds comma-free strings. -/
def cfState (st : PState) : Prop :=
  commaFree st.status ∧ commaFree st.notes ∧ commaFreeData st.data

theorem pluginStep_cf (b : RequestRecord) (st : PState) (f : String)
    (hp : commaFreePlugins b) (h : cfState st) : cfState (pluginStep b st f) := by
  rcases hl : pluginLookup b f with _ | ⟨spec, v⟩ <;> simp only [pluginStep, hl]
  · exact h
  · have hv : commaFree v := pluginLookup_commaFree b f spec v hp hl
    obtain ⟨h1, h2, h3⟩ := h
    split_ifs
    · exact ⟨show commaFree "Parked" by decide, hv, h3⟩
    · exact ⟨show commaFree "Auth Required" by decide, hv, h3⟩
    · exact ⟨h1, h2, dictSet_commaFree st.data spec.output_key v hv h3⟩

theorem foldl_cf (b : RequestRecord) (fields : List String) (hp : commaFreePlugins b) :
    ∀ st : PState, cfState st → cfState (fields.foldl (pluginStep b) st) := by
  induction fields with
  | nil => intro st h; exact h
  | cons f fs ih =>
    intro st h
    exact ih (pluginStep b st f) (pluginStep_cf b st f hp h)

theorem initState_cf (b0 : RequestRecord) (rest : List RequestRecord)
    (tldx : String → TldExtract) (h0 : commaFree b0.http_status)
    (hrest : ∀ r ∈ rest, commaFree r.http_status ∧ commaFree r.target) :
    cfState (initState b0 rest tldx) := by
  unfold initState
  cases hg : rest.getLast? with
  | none =>
    simp only [redirectPart]
    exact ⟨commaFree_baseStatus _ h0, show commaFree "" by decide, commaFreeData_empty⟩
  | some lastB =>
    have hmem : lastB ∈ rest := List.mem_of_mem_getLast? (by rw [hg]; rfl)
    have hlast := hrest lastB hmem
    simp only [redirectPart]
    exact ⟨commaFree_redirectStatus b0 lastB (tldx b0.target) h0 hlast.1,
      show commaFree "" by decide,
      dictSet_commaFree _ _ _ (commaFree_rstripSlash _ hlast.2) commaFreeData_empty⟩

theorem extract_core_cf (b0 : RequestRecord) (rest : List RequestRecord)
    (fields : List String) (tldx : String → TldExtract)
    (h0 : commaFreeBlob b0) (hrest : ∀ r ∈ rest, commaFreeBlob r) :
    commaFreeData (extract_core b0 rest fields tldx) := by
  rw [extract_core_as_phases]
  have hinit := initState_cf b0 rest tldx h0.2.1
    (fun r hr => ⟨(hrest r hr).2.1, (hrest r hr).1⟩)
  have hph : cfState (pluginPhase b0 fields (initState b0 rest tldx)) :=
    foldl_cf b0 (fields ++ ["Parked-Domain", "WWW-Authenticate"]) h0.2.2 _ hinit
  exact dictSet_commaFree _ _ _ hph.2.1
    (dictSet_commaFree _ _ _ hph.1 (dictSet_commaFree _ _ _ h0.1 hph.2.2))

theorem finalizeRecord_cf (d : ExtractedData) (h : commaFreeData d) :
    commaFree (finalizeRecord d).target ∧ commaFree (finalizeRecord d).status ∧
    commaFree (finalizeRecord d).ip_address ∧ commaFree (finalizeRecord d).server ∧
    commaFree (finalizeRecord d).powered_by ∧ commaFree (finalizeRecord d).redirects_to ∧
    commaFree (finalizeRecord d).notes :=
  ⟨commaFreeO_getD _ h.1, commaFreeO_getD _ h.2.1, commaFreeO_getD _ h.2.2.2.1,
   commaFreeO_getD _ h.2.2.2.2.1, commaFreeO_getD _ h.2.2.2.2.2.1,
   commaFreeO_getD _ h.2.2.2.2.2.2.1, commaFreeO_getD _ h.2.2.1⟩

theorem row7_cols (r : OutputRecord) (h1 : commaFree r.target) (h2 : commaFree r.status)
    (h3 : commaFree r.ip_address) (h4 : commaFree r.server) (h5 : commaFree r.powered_by)
    (h6 : commaFree r.redirects_to) (h7 : commaFree r.notes) : numCols (row7 r) = 7 := by
  unfold numCols row7
  unfold commaFree at h1 h2 h3 h4 h5 h6 h7
  repeat rw [ccount_append]
  have hc : ccount "," = 1 := by decide
  have hn : ccount "\n" = 0 := by decide
  omega

theorem failLine_cols (t s : String) (h1 : commaFree t) (h2 : commaFree s) :
    numCols (t ++ "," ++ s ++ "\n") = 2 := by
  unfold numCols
  unfold commaFree at h1 h2
  repeat rw [ccount_append]
  have hc : ccount "," = 1 := by decide
  have hn : ccount "\n" = 0 := by decide
  omega

/-- C8 counterexample: a successfully parsed record whose WWW-Authenticate
value contains a comma: the emitted data row has 8 comma-separated columns,
not 7, because the writer applies no quoting or escaping. -/
theorem c8_counterexample :
    parse_and_extract_data
        (fun _ => some ⟨"t", "500", [("WWW-Authenticate", [("module", ["Basic, realm"])])]⟩)
        tldxConst "x" "IP"
      = ["t,Auth Required,,,,,Basic, realm\n"] ∧
    numCols "t,Auth Required,,,,,Basic, realm\n" = 8 ∧
    ¬(numCols "t,Auth Required,,,,,Basic, realm\n" = 7 ∨
      numCols "t,Auth Required,,,,,Basic, realm\n" = 2) := by
  refine ⟨rfl, by decide, by decide⟩

/-- C8 (amended): every data row emitted for a successfully parsed file
carries exactly the 7 fields target, status, ip_address, server, powered_by,
redirects_to, notes, each defaulted to the empty string when missing, and
parse-failure rows carry exactly 2 fields; provided no string reaching the
output (targets, statuses, plugin values, and the raw text of a failing
file) contains a comma, the emitted lines have exactly 7 or exactly 2
comma-separated columns. -/
theorem c8_uniform_columns (parseLine : String → Option RequestRecord)
    (tldx : String → TldExtract) (raw pf : String)
    (hraw : commaFree (pyRstrip raw))
    (hblobs : ∀ blobs, (pySplit (pyRstrip raw) "\n").mapM parseLine = some blobs →
      ∀ b ∈ blobs, commaFreeBlob b) :
    ∀ l ∈ parse_and_extract_data parseLine tldx raw pf,
      numCols l = 7 ∨ numCols l = 2 := by
  intro l hl
  unfold parse_and_extract_data parse_json_log_output at hl
  cases hm : (pySplit (pyRstrip raw) "\n").mapM parseLine with
  | none =>
    rw [hm] at hl
    simp at hl
    subst hl
    right
    exact failLine_cols _ _ (commaFree_spaceHeadToken _ hraw) (commaFree_classifyFailure _)
  | some blobs =>
    rw [hm] at hl
    cases blobs with
    | nil => simp at hl
    | cons b0 rest =>
      have hcf := hblobs (b0 :: rest) hm
      simp [extract_url_data_from_json] at hl
      subst hl
      left
      have hdata := extract_core_cf b0 rest (splitFields pf) tldx
        (hcf b0 (List.mem_cons_self _ _))
        (fun r hr => hcf r (List.mem_cons_of_mem _ hr))
      have hf := finalizeRecord_cf _ hdata
      exact row7_cols _ hf.1 hf.2.1 hf.2.2.1 hf.2.2.2.1 hf.2.2.2.2.1 hf.2.2.2.2.2.1
        hf.2.2.2.2.2.2

theorem c8_witness :
    numCols "t,Valid,,,,,\n" = 7 ∨ numCols "t,Valid,,,,,\n" = 2 :=
  c8_uniform_columns (fun _ => some ⟨"t", "200", []⟩) tldxConst "x" "IP" (by decide)
    (by
      intro blobs h b hb
      cases h
      simp at hb
      subst hb
      refine ⟨by decide, by decide, ?_⟩
      intro p hp
      cases hp)
    "t,Valid,,,,,\n" (by decide)
